import Mathlib

/-!
# Verification of the impresso-content-auth decision pipeline

Shallow embedding of the authorization sidecar's decision pipeline and the
strategy library (token extractors and matchers), translated from the Python
sources under `src/impresso_content_auth/`, together with theorems settling
the specification claims.

Conventions of the embedding:
* Python `Optional[T]` becomes `Option T`.
* Python code that may raise an exception returns `PyResult α`; the
  constructor `PyResult.exc` carries the exception kind.
* Starlette stores header names lowercased and looks them up
  case-insensitively; the model keeps header keys lowercase and uses exact
  lookup, so `request.headers.get("Authorization")` is embedded as a lookup
  of `"authorization"`.
* Machine-level I/O (HTTP fetches of the IIIF extractor, the filesystem read
  of the manifest-with-secret extractor) is passed in as an explicit
  function parameter, so each extractor stays a pure function of the
  request and its environment.
-/

namespace ImpressoContentAuth

/-- Kinds of Python exceptions the embedded code distinguishes:
`requestError` stands for `httpx.RequestError` (transport-level network
failure), `valueError` for `ValueError`, `typeError` for `TypeError`. -/
inductive PyExc
  | requestError
  | valueError
  | typeError
  deriving DecidableEq, Repr

/-- Result of running a piece of Python code that may raise:
`ok a` is a normal return, `exc e` an escaping exception. -/
inductive PyResult (α : Type)
  | ok (a : α)
  | exc (e : PyExc)
  deriving DecidableEq, Repr

/-- A token produced by an extractor: either a string (bearer token, static
secret, manifest secret, user id) or a 64-bit bitmap value (`BitMask64`). -/
inductive Token
  | str (s : String)
  | mask (n : Nat)
  deriving DecidableEq, Repr

/-- An inbound HTTP subrequest as the pipeline sees it: headers (keys
lowercase, per Starlette), cookies, and the route path parameters. -/
structure Request where
  headers : List (String × String)
  cookies : List (String × String)
  pathParams : List (String × String)

/-- `request.headers.get(k)`: first header with the given (lowercase) key. -/
def hget (req : Request) (k : String) : Option String :=
  (req.headers.find? (fun kv => kv.1 = k)).map (fun kv => kv.2)

/-- `request.path_params.get(k)`. -/
def pget (req : Request) (k : String) : Option String :=
  (req.pathParams.find? (fun kv => kv.1 = k)).map (fun kv => kv.2)

/-- `request.cookies.get(k)`. -/
def cget (req : Request) (k : String) : Option String :=
  (req.cookies.find? (fun kv => kv.1 = k)).map (fun kv => kv.2)

/-! ## String helpers mirroring the Python string operations

These are written by structural recursion on `List Char` so that every
theorem about a concrete input can be settled by kernel evaluation. -/

/-- Split a character list at every occurrence of the separator `c`,
keeping empty segments — the behaviour of Python's `str.split(sep)` with a
one-character separator. -/
def splitCharAux (c : Char) : List Char → List Char → List (List Char)
  | [], acc => [acc.reverse]
  | x :: xs, acc =>
    if x = c then acc.reverse :: splitCharAux c xs []
    else splitCharAux c xs (x :: acc)

/-- Python `s.split(sep)` for a one-character separator `c`. -/
def pySplitChar (s : String) (c : Char) : List String :=
  (splitCharAux c s.data []).map String.mk

/-- Split a character list on runs of characters satisfying `p`, dropping
empty segments — Python's `str.split()` (no separator) with
`p := Char.isWhitespace`. -/
def splitPredAux (p : Char → Bool) : List Char → List Char → List (List Char)
  | [], acc => [acc.reverse]
  | x :: xs, acc =>
    if p x then acc.reverse :: splitPredAux p xs []
    else splitPredAux p xs (x :: acc)

/-- Python `s.split()`: split on whitespace runs, discarding empties. -/
def pySplitWs (s : String) : List String :=
  ((splitPredAux Char.isWhitespace s.data []).filter (fun l => l ≠ [])).map String.mk

/-- Python `s.lower()` (ASCII case folding suffices for the inputs here). -/
def pyLower (s : String) : String :=
  String.mk (s.data.map Char.toLower)

/-- Python `s.strip(c)` for a single strip character. -/
def pyStrip (s : String) (c : Char) : String :=
  String.mk (((s.data.dropWhile (fun x => x = c)).reverse.dropWhile
    (fun x => x = c)).reverse)

/-- Python `s.startswith(p)`. -/
def pyStartsWith (s p : String) : Bool :=
  p.data.isPrefixOf s.data

/-- Python `s[n:]` (drop the first `n` characters). -/
def pyDrop (s : String) (n : Nat) : String :=
  String.mk (s.data.drop n)

/-- Join a list of strings with the separator. -/
def joinWith (sep : String) : List String → String
  | [] => ""
  | [x] => x
  | x :: y :: rest => x ++ sep ++ joinWith sep (y :: rest)

/-! ## BitMask64

Modelled from the spec: `utils/bitmap.py` is not under `src/` (only its
importers are), so `BitMask64` and `is_access_allowed` are modelled from the
spec §4.2: a 64-bit permission vector constructible from raw bytes
(big-endian, at most 8 bytes, left-padded with zero) or from base64 (decode,
then from-bytes); more than 8 meaningful bytes is an input error
(`ValueError`); `IsAccessAllowed(a, b) := (a AND b) ≠ 0`. -/

/-- Value of a base64 alphabet character. -/
def b64Val (c : Char) : Option Nat :=
  if 'A' ≤ c ∧ c ≤ 'Z' then some (c.toNat - 'A'.toNat)
  else if 'a' ≤ c ∧ c ≤ 'z' then some (c.toNat - 'a'.toNat + 26)
  else if '0' ≤ c ∧ c ≤ '9' then some (c.toNat - '0'.toNat + 52)
  else if c = '+' then some 62
  else if c = '/' then some 63
  else none

/-- Decode a base64 character stream (groups of four characters, `=`
padding allowed only at the end) into bytes; `none` models the decoder
raising on malformed input. -/
def b64DecodeAux : List Char → Option (List Nat)
  | [] => some []
  | c1 :: c2 :: c3 :: c4 :: rest =>
    match b64Val c1, b64Val c2 with
    | some v1, some v2 =>
      if c3 = '=' then
        if c4 = '=' ∧ rest = [] then some [v1 * 4 + v2 / 16] else none
      else
        match b64Val c3 with
        | some v3 =>
          if c4 = '=' then
            if rest = [] then some [v1 * 4 + v2 / 16, (v2 % 16) * 16 + v3 / 4]
            else none
          else
            match b64Val c4 with
            | some v4 =>
              (b64DecodeAux rest).map (fun bs =>
                (v1 * 4 + v2 / 16) :: ((v2 % 16) * 16 + v3 / 4) ::
                  ((v3 % 4) * 64 + v4) :: bs)
            | none => none
        | none => none
    | _, _ => none
  | _ => none

/-- `BitMask64` from raw bytes: at most 8 bytes, big-endian, left
zero-padded; more than 8 bytes raises `ValueError`. -/
def bitMask64OfBytes (bs : List Nat) : PyResult Nat :=
  if bs.length > 8 then .exc .valueError
  else .ok (bs.foldl (fun acc b => acc * 256 + b) 0)

/-- `BitMask64` from a base64 string: decode, then from-bytes; a decode
failure raises `ValueError` (Python `binascii.Error` is a `ValueError`). -/
def bitMask64OfStr (s : String) : PyResult Nat :=
  match b64DecodeAux s.data with
  | none => .exc .valueError
  | some bs => bitMask64OfBytes bs

/-- `is_access_allowed(a, b) := (a AND b) ≠ 0` (spec §4.2). -/
def isAccessAllowed (a b : Nat) : Bool :=
  a &&& b ≠ 0

/-! ## Simple extractors

Translated from `strategy/extractor/bearer_token.py` and
`strategy/extractor/static_secret.py`. -/

/-- `BearerTokenExtractor.__call__`: read the `Authorization` header,
split on whitespace; exactly two parts with the first case-insensitively
`bearer` yields the second part, anything else `None`. -/
def bearerTokenExtractor (req : Request) : Option String :=
  match hget req "authorization" with
  | none => none
  | some h =>
    if h = "" then none
    else
      match pySplitWs h with
      | [p0, p1] => if pyLower p0 = "bearer" then some p1 else none
      | _ => none

/-- `StaticSecretExtractor.__call__`: always return the configured secret. -/
def staticSecretExtractor (secret : String) (_req : Request) : String :=
  secret

/-! ## ManifestWithSecretExtractor

Translated from `strategy/extractor/manifest_with_secret.py`. The
filesystem is passed in as `fs : String → Option String`, mapping an
OS-resolved absolute path to the `secret` field of the JSON file at that
path (`none` models: file missing, unreadable, unparseable JSON, or no
`secret` field — all of which make the extractor return `None`). Since
`os.path.exists` and `open` resolve `..` segments at the OS level, the
extractor queries `fs` at the lexically normalized path. -/

/-- `os.path.join(a, b)` for the cases arising here: an absolute `b` wins,
otherwise concatenate with a single separating slash. -/
def pyPathJoin (a b : String) : String :=
  if pyStartsWith b "/" then b
  else if a = "" then b
  else if a.data.getLast? = some '/' then a ++ b
  else a ++ "/" ++ b

/-- `ManifestWithSecretExtractor._uri_to_path`: strip query and fragment,
drop a leading slash, then join onto the base path. -/
def uriToPath (basePath uri : String) : String :=
  let p1 := (pySplitChar uri '?').headD ""
  let p2 := (pySplitChar p1 '#').headD ""
  let rel := if pyStartsWith p2 "/" then pyDrop p2 1 else p2
  pyPathJoin basePath rel

/-- `pathlib.Path(name).stem`: the final component without its suffix; the
suffix is taken from the last `.` only when that dot is neither the first
nor the last character. -/
def pyStem (name : String) : String :=
  let rcs := name.data.reverse
  let ext := rcs.takeWhile (fun c => c ≠ '.')
  if ext.length = name.data.length then name
  else if ext.length = 0 then name
  else if ext.length + 1 = name.data.length then name
  else String.mk ((rcs.drop (ext.length + 1)).reverse)

/-- Split a path into (parent, final component); parent is `.` when the
path has no slash, mirroring `pathlib.Path.parent`. -/
def splitLastSlash (p : String) : String × String :=
  let rcs := p.data.reverse
  let nameR := rcs.takeWhile (fun c => c ≠ '/')
  if nameR.length = p.data.length then (".", p)
  else
    let dirLen := p.data.length - nameR.length - 1
    let dir := if dirLen = 0 then "/" else String.mk (p.data.take dirLen)
    (dir, String.mk nameR.reverse)

/-- `ManifestWithSecretExtractor._get_manifest_path`: replace the final
component `name.ext` with `name_manifest.json` in the same directory. -/
def getManifestPath (filePath : String) : String :=
  let (dir, name) := splitLastSlash filePath
  pyPathJoin dir (pyStem name ++ "_manifest.json")

/-- Lexically resolve `.` and `..` segments of an absolute path, the way
the operating system resolves them when the intermediate directories
exist (`..` at the root stays at the root). -/
def normSegsAux : List String → List String → List String
  | acc, [] => acc.reverse
  | acc, s :: rest =>
    if s = "" ∨ s = "." then normSegsAux acc rest
    else if s = ".." then normSegsAux acc.tail rest
    else normSegsAux (s :: acc) rest

/-- Normalize an absolute path: split on `/`, resolve `.` and `..`. -/
def normalizePath (p : String) : String :=
  "/" ++ joinWith "/" (normSegsAux [] (pySplitChar p '/'))

/-- `ManifestWithSecretExtractor.__call__`: require `x-original-uri`,
convert it to a file path under the base path, derive the manifest path,
and read the manifest's `secret` through the filesystem `fs`. -/
def manifestWithSecretCall (fs : String → Option String) (basePath : String)
    (req : Request) : Option String :=
  match hget req "x-original-uri" with
  | none => none
  | some uri =>
    if uri = "" then none
    else
      let filePath := uriToPath basePath uri
      let manifestPath := getManifestPath filePath
      fs (normalizePath manifestPath)

/-! ## Audience reconstruction

Translated from the identical blocks in
`strategy/extractor/cookie_bitmap_extractor.py` (lines 59–70) and
`strategy/extractor/cookie_user_id_extractor.py` (lines 61–72). -/

/-- Audience reconstructed from the forwarded headers: `proto://host`,
with `:port` appended only when `x-forwarded-port` is present, non-empty
and neither `"80"` nor `"443"`; `none` when the host or the proto header
is missing or empty. -/
def audienceFromHeaders (req : Request) : Option String :=
  let fwdHost := hget req "x-forwarded-host"
  let fwdProto := hget req "x-forwarded-proto"
  let fwdPort := hget req "x-forwarded-port"
  match fwdHost, fwdProto with
  | some h, some p =>
    if h = "" ∨ p = "" then none
    else
      let portPart :=
        match fwdPort with
        | none => ""
        | some pt => if pt = "" ∨ pt = "80" ∨ pt = "443" then "" else ":" ++ pt
      some (p ++ "://" ++ h ++ portPart)
  | _, _ => none

/-! ## URI and document-id parsing

Translated from `strategy/extractor/solr_document.py` (id parsers) and
`strategy/extractor/iiif_presentation_manifest.py`
(`extract_url_from_x_original_uri`). -/

/-- `extract_url_from_x_original_uri`: requires non-empty `x-original-uri`
and `x-forwarded-host`; scheme is `https` exactly when `x-forwarded-proto`
equals `"https"`, else `http`; returns `scheme://host{path}`. -/
def extractUrlFromXOriginalUri (req : Request) : Option String :=
  let path := (hget req "x-original-uri").getD ""
  if path = "" then none
  else
    let host := (hget req "x-forwarded-host").getD ""
    if host = "" then none
    else
      let scheme :=
        if hget req "x-forwarded-proto" = some "https" then "https" else "http"
      some (scheme ++ "://" ++ host ++ path)

/-- Strip the first matching prefix of the list from the path (Python loop
with `break`; a later prefix is not tried once one matched). -/
def stripFirstMatching (path : String) : List String → String
  | [] => path
  | p :: rest =>
    if pyStartsWith path p then pyDrop path p.length
    else stripFirstMatching path rest

/-- `extract_id_from_x_original_uri_with_iiif`: honour an optional
non-empty `x-prefix-strip` header (comma-separated, first matching prefix
stripped), then return the first path segment of the slash-trimmed path,
or `None` when it is empty. -/
def extractIdFromXOriginalUriWithIiif (req : Request) : Option String :=
  let path := (hget req "x-original-uri").getD ""
  if path = "" then none
  else
    let path :=
      match hget req "x-prefix-strip" with
      | none => path
      | some ps =>
        if ps = "" then path
        else stripFirstMatching path (pySplitChar ps ',')
    match pySplitChar (pyStrip path '/') '/' with
    | [] => none
    | c0 :: _ => if c0 = "" then none else some c0

/-- `re.sub(r"-p\d+$", "-*", s)`: when the string ends in `-p` followed by
one or more digits, replace that suffix with `-*`; otherwise unchanged. -/
def replacePageSuffix (s : String) : String :=
  let rcs := s.data.reverse
  let ds := rcs.takeWhile Char.isDigit
  let rest := rcs.dropWhile Char.isDigit
  match ds, rest with
  | _ :: _, 'p' :: '-' :: stemR => String.mk (stemR.reverse ++ ['-', '*'])
  | _, _ => s

/-- `extract_id_from_x_original_uri_with_iiif_and_wildcard_page_suffix`:
IIIF id extraction followed by the trailing-page-suffix wildcard
replacement. -/
def extractIdWithIiifAndWildcardPageSuffix (req : Request) : Option String :=
  match extractIdFromXOriginalUriWithIiif req with
  | none => none
  | some idWithPage =>
    if idWithPage = "" then none
    else some (replacePageSuffix idWithPage)

/-! ## IIIFPresentationManifestExtractor

Translated from `strategy/extractor/iiif_presentation_manifest.py`. The
HTTP layer is a parameter `http : String → HttpReply`: a reply is either a
response with a status code and an (already JSON-parsed, dacite-decoded)
manifest body, or a transport failure (`httpx.RequestError`). -/

/-- One metadata entry of a IIIF v3 canvas: `label` and `value` are maps
from language to a list of strings (modelled as association lists). -/
structure MetadataItem where
  label : List (String × List String)
  value : List (String × List String)
  deriving DecidableEq, Repr

/-- A IIIF v3 canvas, reduced to the `metadata` list the extractor reads. -/
structure Canvas where
  metadata : List MetadataItem
  deriving DecidableEq, Repr

/-- A IIIF v3 manifest, reduced to the `items` list the extractor reads. -/
structure Manifest where
  items : List Canvas
  deriving DecidableEq, Repr

/-- Reply of the manifest HTTP client: a status code with a parsed body, or
a transport-level request error. -/
inductive HttpReply
  | resp (status : Nat) (body : Manifest)
  | requestError
  deriving DecidableEq, Repr

/-- `urlparse`-style split of `scheme://rest` at the first `://`. -/
def splitSchemeRest : List Char → Option (List Char × List Char)
  | [] => none
  | ':' :: '/' :: '/' :: rest => some ([], rest)
  | x :: xs => (splitSchemeRest xs).map (fun ab => (x :: ab.1, ab.2))

/-- `IIIFPresentationManifestExtractor._get_manifest_url`: replace the last
path component of the file URL with the manifest path (for the URLs the
wired URL extractor produces, which always carry a scheme). -/
def manifestUrlFor (fileUrl manifestPath : String) : String :=
  match splitSchemeRest fileUrl.data with
  | none => fileUrl
  | some (schemeCs, restCs) =>
    let scheme := String.mk schemeCs
    match pySplitChar (String.mk restCs) '/' with
    | [] => fileUrl
    | netloc :: segs =>
      if segs = [] then scheme ++ "://" ++ netloc ++ "/" ++ manifestPath
      else
        let base := joinWith "/" (segs.dropLast)
        if base = "" then scheme ++ "://" ++ netloc ++ "/" ++ manifestPath
        else scheme ++ "://" ++ netloc ++ "/" ++ base ++ "/" ++ manifestPath

/-- `_fetch_manifest`: a transport error is re-raised; any status other
than 200 returns `None`; a 200 response returns the parsed manifest. -/
def fetchManifest (http : String → HttpReply) (url : String) :
    PyResult (Option Manifest) :=
  match http url with
  | .requestError => .exc .requestError
  | .resp status body => if status ≠ 200 then .ok none else .ok (some body)

/-- First non-empty value list of a metadata item's `value` map, taking the
first string (the inner loop of `_extract_bitmap_from_manifest`). -/
def findInValues : List (String × List String) → Option String
  | [] => none
  | (_, vs) :: rest =>
    match vs with
    | v :: _ => some v
    | [] => findInValues rest

/-- Whether the metadata field name occurs under any language of a label. -/
def labelMatches (field : String) (label : List (String × List String)) : Bool :=
  label.any (fun lv => lv.2.contains field)

/-- The item loop of `_extract_bitmap_from_manifest`: the first item whose
label is non-empty and mentions the field, and whose value map has a
non-empty list, yields that list's first string; otherwise continue. -/
def findBitmap (field : String) : List MetadataItem → Option String
  | [] => none
  | item :: rest =>
    if item.label ≠ [] ∧ labelMatches field item.label then
      match findInValues item.value with
      | some v => some v
      | none => findBitmap field rest
    else findBitmap field rest

/-- `_extract_bitmap_from_manifest`: look in the first canvas's metadata. -/
def extractBitmapFromManifest (field : String) (m : Manifest) : Option String :=
  match m.items with
  | [] => none
  | canvas :: _ =>
    if canvas.metadata = [] then none
    else findBitmap field canvas.metadata

/-- `IIIFPresentationManifestExtractor.__call__`: derive the file URL, turn
it into the manifest URL, fetch; network errors and `ValueError` are
re-raised, a missing manifest or missing bitmap returns `None`, otherwise
the bitmap string is turned into a `BitMask64` token. -/
def iiifManifestCall (http : String → HttpReply)
    (urlExtractor : Request → Option String)
    (metadataField manifestPath : String) (req : Request) :
    PyResult (Option Token) :=
  match urlExtractor req with
  | none => .ok none
  | some fileUrl =>
    if fileUrl = "" then .ok none
    else
      let murl := manifestUrlFor fileUrl manifestPath
      match fetchManifest http murl with
      | .exc e => .exc e
      | .ok none => .ok none
      | .ok (some m) =>
        match extractBitmapFromManifest metadataField m with
        | none => .ok none
        | some bitmap =>
          match bitMask64OfStr bitmap with
          | .exc e => .exc e
          | .ok n => .ok (some (.mask n))

/-! ## Matchers

Translated from `strategy/matcher/equality.py`,
`strategy/matcher/bitwise_and.py` and `strategy/matcher/quota_matcher.py`. -/

/-- `EqualityMatcher.__call__`: Python `a == b` on the token values
(equal strings, or equal bitmap values; values of different kinds are not
equal). -/
def equalityMatcher (a b : Token) : Bool :=
  a == b

/-- `BitWiseAndMatcherStrategy.__call__`: `is_access_allowed` on two
bitmap tokens; a `TypeError`/`ValueError` (e.g. string operands) is caught
and yields `False`. -/
def bitwiseAndMatcher : Token → Token → Bool
  | .mask a, .mask b => isAccessAllowed a b
  | _, _ => false

/-- `QuotaMatcher.__call__`: everything runs inside one `try`. An exception
from either sub-extractor or from the quota checker fails open (`True`); a
missing or empty user id or document id fails open; otherwise the result is
`True` exactly when the checker reports `"below_quota"`. -/
def quotaMatcherCall (userIdExtractor docIdExtractor : Request → PyResult (Option String))
    (quotaChecker : String → String → PyResult String) (req : Request) : Bool :=
  match userIdExtractor req with
  | .exc _ => true
  | .ok userId =>
    match docIdExtractor req with
    | .exc _ => true
    | .ok docId =>
      match userId, docId with
      | some u, some d =>
        if u = "" ∨ d = "" then true
        else
          match quotaChecker u d with
          | .exc _ => true
          | .ok result => result == "below_quota"
      | _, _ => true

/-! ## Registries and the decision pipeline

Translated from `server.py` (`auth_check`) and the registry shape of
`di.py`. An extractor entry is a function from the request to a
`PyResult (Option Token)`; a matcher entry is either a token-level matcher
(equality, bitwise-and, null) or the request-level quota matcher. Calling
an entry of the wrong arity — a token matcher invoked as the quota matcher
or vice versa — is a Python `TypeError`, which `auth_check` does not
catch. -/

/-- An extractor registry entry. -/
abbrev Extractor := Request → PyResult (Option Token)

/-- A matcher registry entry: token-level, or the request-level quota
matcher (which, per `quota_matcher.py`, never raises). -/
inductive MatcherEntry
  | tokenMatcher (m : Token → Token → Bool)
  | quotaEntry (q : Request → Bool)

/-- The two named registries built by the DI container. -/
structure Container where
  extractors : String → Option Extractor
  matchers : String → Option MatcherEntry

/-- An HTTP response of the decision endpoint: a status code and the
optional `X-Redirect-Url` header. -/
structure HttpResponse where
  status : Nat
  redirectUrl : Option String
  deriving DecidableEq, Repr

/-- Outcome of `auth_check`: a response, or an uncaught exception
propagating out of the handler (surfacing as a 5xx). -/
inductive ServerResult
  | response (r : HttpResponse)
  | raise (e : PyExc)
  deriving DecidableEq, Repr

/-- `request.path_params.get("client_token_extractor") or ""`. -/
def clientExtractorName (req : Request) : String :=
  (pget req "client_token_extractor").getD ""

/-- `request.path_params.get("resource_token_extractor") or ""`. -/
def resourceExtractorName (req : Request) : String :=
  (pget req "resource_token_extractor").getD ""

/-- `request.path_params.get("matcher") or ""`. -/
def matcherName (req : Request) : String :=
  (pget req "matcher").getD ""

/-- Registry lookup of the client-token extractor. -/
def lookupClient (c : Container) (req : Request) : Option Extractor :=
  c.extractors (clientExtractorName req)

/-- Registry lookup of the resource-token extractor. -/
def lookupResource (c : Container) (req : Request) : Option Extractor :=
  c.extractors (resourceExtractorName req)

/-- Registry lookup of the matcher. -/
def lookupMatcher (c : Container) (req : Request) : Option MatcherEntry :=
  c.matchers (matcherName req)

/-- The quota-exhausted response: 403 with the redirect hint header. -/
def quotaDenyResponse : ServerResult :=
  .response ⟨403, some "https://http.cat/429"⟩

/-- A plain deny: `Response(status_code=403)`. -/
def denyResponse : ServerResult :=
  .response ⟨403, none⟩

/-- `auth_check` after the quota block: resolve both extractors (missing
either one denies), resolve the matcher (missing denies), run both
extractors — `asyncio.gather` re-raises the first exception — deny when
either token is `None`, otherwise answer with the matcher's verdict. -/
def authCheckCore (c : Container) (req : Request) : ServerResult :=
  match lookupClient c req, lookupResource c req with
  | some clientExtractor, some resourceExtractor =>
    match lookupMatcher c req with
    | none => denyResponse
    | some matcherEntry =>
      match clientExtractor req with
      | .exc e => .raise e
      | .ok clientToken =>
        match resourceExtractor req with
        | .exc e => .raise e
        | .ok resourceToken =>
          match clientToken, resourceToken with
          | some a, some b =>
            match matcherEntry with
            | .tokenMatcher m =>
              .response ⟨if m a b then 200 else 403, none⟩
            | .quotaEntry _ => .raise .typeError
          | _, _ => denyResponse
  | _, _ => denyResponse

/-- `auth_check(request, check_quota)`: when `check_quota` is set, first
look up the registry entry named `"quota"`; if present and it returns
`False`, deny with `X-Redirect-Url: https://http.cat/429`; if absent, skip
silently. Only then resolve the extractors and the matcher. -/
def authCheck (c : Container) (checkQuota : Bool) (req : Request) : ServerResult :=
  if checkQuota then
    match c.matchers "quota" with
    | some (.quotaEntry q) =>
      if q req then authCheckCore c req else quotaDenyResponse
    | some (.tokenMatcher _) => .raise .typeError
    | none => authCheckCore c req
  else authCheckCore c req

/-- The quota step lets the request through: quota was not requested, no
entry named `"quota"` is registered, or the registered quota matcher
returned `True`. -/
def QuotaPass (c : Container) (checkQuota : Bool) (req : Request) : Prop :=
  checkQuota = false ∨ c.matchers "quota" = none ∨
    ∃ q, c.matchers "quota" = some (.quotaEntry q) ∧ q req = true

/-! ## The calling convention of extractor entries and `asyncio.gather`

The `TokenExtractorStrategy` protocol declares `async def __call__`
(`strategy/extractor/base.py` line 14) and `auth_check` hands the two call
results to `asyncio.gather` (`server.py` lines 129–132). Most extractors
are `async def`; `BearerTokenExtractor.__call__` (`bearer_token.py` line
19) and `ManifestWithSecretExtractor.__call__` (`manifest_with_secret.py`
line 33) are plain `def`. Calling a plain-`def` extractor runs its body at
argument-evaluation time and yields its plain `str`/`None` return value;
`asyncio.gather` then raises `TypeError` because that value is not an
awaitable. Calling an `async def` extractor only creates a coroutine whose
body runs when gather awaits it. The `Extractor`-based `authCheck` above
models the pipeline over `async def` entries; `authCheckGather` below
carries the calling convention and models the `TypeError`. -/

/-- A registry entry together with the calling convention of its
`__call__`: `asyncCall` for `async def` (body runs when awaited by
gather), `syncCall` for a plain `def` (body runs at argument-evaluation
time; its return value is not awaitable). -/
inductive CallEntry
  | asyncCall (f : Request → PyResult (Option Token))
  | syncCall (f : Request → PyResult (Option Token))

/-- Registries whose extractor entries carry their calling convention. -/
structure CallContainer where
  extractors : String → Option CallEntry
  matchers : String → Option MatcherEntry

/-- Registry lookup of the client-token extractor entry. -/
def lookupClientCall (c : CallContainer) (req : Request) : Option CallEntry :=
  c.extractors (clientExtractorName req)

/-- Registry lookup of the resource-token extractor entry. -/
def lookupResourceCall (c : CallContainer) (req : Request) : Option CallEntry :=
  c.extractors (resourceExtractorName req)

/-- Registry lookup of the matcher entry. -/
def lookupMatcherCall (c : CallContainer) (req : Request) : Option MatcherEntry :=
  c.matchers (matcherName req)

/-- The `await asyncio.gather(client(request), resource(request))` step.
Python first evaluates the two call expressions left to right: a sync body
runs immediately and its exception propagates; then gather validates its
arguments in order and raises `TypeError` at the first non-awaitable; only
when both arguments are coroutines are the bodies awaited (client's
exception first, as in `authCheckCore`) and the continuation `k` receives
the two tokens. -/
def gatherStep (ce re : CallEntry) (req : Request)
    (k : Option Token → Option Token → ServerResult) : ServerResult :=
  match ce with
  | .syncCall f =>
    match f req with
    | .exc e => .raise e
    | .ok _ =>
      match re with
      | .syncCall g =>
        match g req with
        | .exc e => .raise e
        | .ok _ => .raise .typeError
      | .asyncCall _ => .raise .typeError
  | .asyncCall f =>
    match re with
    | .syncCall g =>
      match g req with
      | .exc e => .raise e
      | .ok _ => .raise .typeError
    | .asyncCall g =>
      match f req with
      | .exc e => .raise e
      | .ok ct =>
        match g req with
        | .exc e => .raise e
        | .ok rt => k ct rt

/-- `auth_check` after the quota block, with the gather calling-convention
check: lookup failures deny as in `authCheckCore`, then the gather step
runs and the verdict is computed from the two tokens as before. -/
def authCheckGatherCore (c : CallContainer) (req : Request) : ServerResult :=
  match lookupClientCall c req, lookupResourceCall c req with
  | some ce, some re =>
    match lookupMatcherCall c req with
    | none => denyResponse
    | some matcherEntry =>
      gatherStep ce re req (fun clientToken resourceToken =>
        match clientToken, resourceToken with
        | some a, some b =>
          match matcherEntry with
          | .tokenMatcher m => .response ⟨if m a b then 200 else 403, none⟩
          | .quotaEntry _ => .raise .typeError
        | _, _ => denyResponse)
  | _, _ => denyResponse

/-- `auth_check(request, check_quota)` with the gather calling-convention
check; the quota block is the same as in `authCheck`. -/
def authCheckGather (c : CallContainer) (checkQuota : Bool) (req : Request) :
    ServerResult :=
  if checkQuota then
    match c.matchers "quota" with
    | some (.quotaEntry q) =>
      if q req then authCheckGatherCore c req else quotaDenyResponse
    | some (.tokenMatcher _) => .raise .typeError
    | none => authCheckGatherCore c req
  else authCheckGatherCore c req

/-! ## Cookie extractor construction and audience-verification wiring

Translated from the signatures and call sites in
`strategy/extractor/cookie_bitmap_extractor.py`,
`strategy/extractor/cookie_user_id_extractor.py`, `utils/jwt_utils.py` and
`di.py`. Python raises `TypeError` when a call passes a keyword argument
that is not among the callee's parameters. -/

/-- Keyword parameters accepted by `CookieBitmapExtractor.__init__`
(besides `self`), from `cookie_bitmap_extractor.py` lines 22–28. -/
def cookieBitmapInitParams : List String :=
  ["cookie_name", "jwt_secret", "jwt_algorithms", "bitmap_key"]

/-- Keyword parameters accepted by `CookieUserIdExtractor.__init__`
(besides `self`), from `cookie_user_id_extractor.py` lines 24–29. -/
def cookieUserIdInitParams : List String :=
  ["cookie_name", "jwt_secret", "jwt_algorithms", "verify_audience"]

/-- Keyword arguments the DI container passes when building the
`"cookie-bitmap"` registry entry (`di.py` lines 152–163). -/
def diCookieBitmapKwargs : List String :=
  ["cookie_name", "jwt_secret", "verify_audience"]

/-- Python call semantics: the call raises `TypeError` exactly when some
keyword argument is not among the callee's parameters. -/
def hasUnexpectedKwarg (kwargs params : List String) : Bool :=
  kwargs.any (fun k => ¬ params.contains k)

/-- Keyword arguments `CookieBitmapExtractor.__call__` passes to
`validate_jwt` (`cookie_bitmap_extractor.py` lines 73–78): no
`verify_audience` among them, so the default applies. -/
def cookieBitmapValidateJwtKwargs : List String :=
  ["token", "secret", "audience", "algorithms"]

/-- Default of the `verify_audience` parameter of `validate_jwt`
(`jwt_utils.py` line 16). -/
def validateJwtVerifyAudienceDefault : Bool := true

/-- The `verify_audience` value `CookieBitmapExtractor.__call__` effectively
uses: its `validate_jwt` call passes no `verify_audience` keyword
(`cookieBitmapValidateJwtKwargs` above), so the parameter takes the
default, irrespective of any configuration. -/
def cookieBitmapEffectiveVerifyAudience : Bool :=
  validateJwtVerifyAudienceDefault

/-! ## Concrete containers and requests used as instances -/

/-- The `"static-secret"` registry entry for a service configured with
`static_secret=s3cr3t` (`di.py` lines 112–119, wrapped as a pipeline
extractor). -/
def staticSecretEntry : Extractor :=
  fun r => .ok (some (.str (staticSecretExtractor "s3cr3t" r)))

/-- An HTTP layer whose every request fails at transport level. -/
def httpAlwaysRequestError : String → HttpReply :=
  fun _ => .requestError

/-- An HTTP layer whose every request answers 404. -/
def httpAlways404 : String → HttpReply :=
  fun _ => .resp 404 ⟨[]⟩

/-- An HTTP layer whose every request answers 500. -/
def httpAlways500 : String → HttpReply :=
  fun _ => .resp 500 ⟨[]⟩

/-- The `"iiif-presentation-manifest"` registry entry (`di.py` lines
164–167) over the failing transport layer. -/
def iiifEntryRequestError : Extractor :=
  fun r => iiifManifestCall httpAlwaysRequestError extractUrlFromXOriginalUri
    "explore_bitmaps" "manifest.json" r

/-- A container with the static-secret and IIIF-manifest extractors
(both `async def`, so representable as plain `Extractor` entries) and the
equality and bitwise-and matchers registered; no `"quota"` entry. -/
def demoContainer : Container :=
  { extractors := fun n =>
      if n = "static-secret" then some staticSecretEntry
      else if n = "iiif-presentation-manifest" then some iiifEntryRequestError
      else none
    matchers := fun n =>
      if n = "equality" then some (.tokenMatcher equalityMatcher)
      else if n = "bitwise-and" then some (.tokenMatcher bitwiseAndMatcher)
      else none }

/-- A quota matcher that reports the quota as reached for every request. -/
def alwaysOverQuota : Request → Bool :=
  fun _ => false

/-- `demoContainer` with a `"quota"` entry that always denies. -/
def quotaDenyContainer : Container :=
  { extractors := demoContainer.extractors
    matchers := fun n =>
      if n = "quota" then some (.quotaEntry alwaysOverQuota)
      else demoContainer.matchers n }

/-- `GET /equality/static-secret/bearer-token` with
`Authorization: Bearer s3cr3t`. -/
def reqBearerGood : Request :=
  ⟨[("authorization", "Bearer s3cr3t")], [],
   [("matcher", "equality"), ("client_token_extractor", "static-secret"),
    ("resource_token_extractor", "bearer-token")]⟩

/-- Same route with the wrong bearer token. -/
def reqBearerWrong : Request :=
  ⟨[("authorization", "Bearer xyz")], [],
   [("matcher", "equality"), ("client_token_extractor", "static-secret"),
    ("resource_token_extractor", "bearer-token")]⟩

/-- `/bitwise-and/static-secret/iiif-presentation-manifest` — the resource
extractor is the (non-index) IIIF manifest extractor. -/
def reqIiifResource : Request :=
  ⟨[("x-original-uri", "/doc/info.json"), ("x-forwarded-host", "example.com")], [],
   [("matcher", "bitwise-and"), ("client_token_extractor", "static-secret"),
    ("resource_token_extractor", "iiif-presentation-manifest")]⟩

/-- As `reqIiifResource` with the extractor roles swapped, so the client
extractor is the IIIF manifest extractor. -/
def reqIiifClient : Request :=
  ⟨[("x-original-uri", "/doc/info.json"), ("x-forwarded-host", "example.com")], [],
   [("matcher", "bitwise-and"), ("client_token_extractor", "iiif-presentation-manifest"),
    ("resource_token_extractor", "static-secret")]⟩

/-- A request naming an unregistered matcher, with both extractor names
registered. -/
def reqUnknownMatcher : Request :=
  ⟨[("x-original-uri", "/doc/info.json"), ("x-forwarded-host", "example.com")], [],
   [("matcher", "no-such-matcher"), ("client_token_extractor", "static-secret"),
    ("resource_token_extractor", "static-secret")]⟩

/-- A request carrying only the `x-original-uri` of the wildcard example. -/
def reqWildcardExample : Request :=
  ⟨[("x-original-uri", "/EXP-1829-03-26-a-p0007/info.json")], [], []⟩

/-- A request with forwarded proto/host/port headers for the audience
witness. -/
def reqForwarded8080 : Request :=
  ⟨[("x-forwarded-proto", "https"), ("x-forwarded-host", "example.com"),
    ("x-forwarded-port", "8080")], [], []⟩

/-- A filesystem with a single `*_manifest.json` file, outside
`/app/static_files`, whose `secret` field is `"outside-secret"`. -/
def fsOutsideBase : String → Option String :=
  fun p => if p = "/app/secret_dir/evil_manifest.json" then some "outside-secret" else none

/-- The traversal request: its `x-original-uri` begins with a `..`
segment. -/
def reqDotDotUri : Request :=
  ⟨[("x-original-uri", "/../secret_dir/evil.txt")], [], []⟩

/-- A user-id sub-extractor returning a fixed user. -/
def quotaUserExtractorDemo : Request → PyResult (Option String) :=
  fun _ => .ok (some "user1")

/-- A doc-id sub-extractor returning a fixed document. -/
def quotaDocExtractorDemo : Request → PyResult (Option String) :=
  fun _ => .ok (some "doc1")

/-- A quota checker reporting the quota as reached. -/
def quotaCheckerReached : String → String → PyResult String :=
  fun _ _ => .ok "quota_reached"

/-- An empty request. -/
def reqEmpty : Request := ⟨[], [], []⟩

/-- The `"iiif-presentation-manifest"` registry entry over the
always-404 HTTP layer. -/
def iiifEntry404 : Extractor :=
  fun r => iiifManifestCall httpAlways404 extractUrlFromXOriginalUri
    "explore_bitmaps" "manifest.json" r

/-- `demoContainer` with the IIIF-manifest entry wired to the always-404
HTTP layer. -/
def demo404Container : Container :=
  { extractors := fun n =>
      if n = "iiif-presentation-manifest" then some iiifEntry404
      else demoContainer.extractors n
    matchers := demoContainer.matchers }

/-- The `"bearer-token"` registry entry (`di.py` line 103) with its real
calling convention: `BearerTokenExtractor.__call__` is a plain `def`
(`bearer_token.py` line 19), so it is a `syncCall` entry. -/
def bearerTokenSyncEntry : CallEntry :=
  .syncCall (fun r => .ok ((bearerTokenExtractor r).map Token.str))

/-- The `"static-secret"` entry with its calling convention
(`StaticSecretExtractor.__call__` is `async def`, `static_secret.py`
line 24). -/
def staticSecretCallEntry : CallEntry :=
  .asyncCall staticSecretEntry

/-- A calling-convention-aware container for the
`/equality/static-secret/bearer-token` route with `static_secret=s3cr3t`. -/
def bearerCallContainer : CallContainer :=
  { extractors := fun n =>
      if n = "static-secret" then some staticSecretCallEntry
      else if n = "bearer-token" then some bearerTokenSyncEntry
      else none
    matchers := fun n =>
      if n = "equality" then some (.tokenMatcher equalityMatcher) else none }

/-! ## Shared lemmas -/

/-- When the quota step lets the request through, `auth_check` behaves as
the core resolution-and-match pipeline. -/
theorem authCheck_eq_core {c : Container} {checkQuota : Bool} {req : Request}
    (h : QuotaPass c checkQuota req) :
    authCheck c checkQuota req = authCheckCore c req := by
  rcases h with h | h | ⟨q, hq, hqt⟩
  · simp [authCheck, h]
  · simp [authCheck, h]
  · simp [authCheck, hq, hqt]

/-- On registries whose every extractor entry is `async def`, the
gather-aware pipeline agrees with `authCheck`: the `Extractor`-based model
is exactly the restriction of `authCheckGather` to `asyncCall` entries. -/
theorem authCheckGather_eq_authCheck (cc : CallContainer) (c : Container)
    (wq : Bool) (req : Request)
    (hext : ∀ n, cc.extractors n = (c.extractors n).map CallEntry.asyncCall)
    (hmat : ∀ n, cc.matchers n = c.matchers n) :
    authCheckGather cc wq req = authCheck c wq req := by
  have hcore : authCheckGatherCore cc req = authCheckCore c req := by
    unfold authCheckGatherCore authCheckCore lookupClientCall lookupResourceCall
      lookupMatcherCall lookupClient lookupResource lookupMatcher
    rw [hext (clientExtractorName req), hext (resourceExtractorName req),
      hmat (matcherName req)]
    cases hc : c.extractors (clientExtractorName req) with
    | none => rfl
    | some ce =>
      cases hr : c.extractors (resourceExtractorName req) with
      | none => rfl
      | some re =>
        cases hm : c.matchers (matcherName req) with
        | none => rfl
        | some m => rfl
  unfold authCheckGather authCheck
  rw [hmat "quota"]
  cases hq : c.matchers "quota" with
  | none => cases wq <;> simp [hcore]
  | some m =>
    cases m with
    | tokenMatcher tm => cases wq <;> simp [hcore]
    | quotaEntry q => cases wq <;> simp [hcore]

/-- The character data of an appended string is the appended data. -/
theorem data_append_eq (a b : String) : (a ++ b).data = a.data ++ b.data := rfl

/-- Strings with the same character data are equal. -/
theorem string_eq_of_data {a b : String} (h : a.data = b.data) : a = b := by
  cases a
  cases b
  exact congrArg String.mk h

/-- `takeWhile`/`dropWhile` split an appended list whose first part is all
`p` and whose second part starts with a non-`p` character. -/
theorem takeWhile_dropWhile_append {p : Char → Bool} :
    ∀ (l m : List Char), (∀ c ∈ l, p c = true) →
      (∀ c, m.head? = some c → p c = false) →
      (l ++ m).takeWhile p = l ∧ (l ++ m).dropWhile p = m := by
  intro l m hl hm
  induction l with
  | nil =>
    cases m with
    | nil => simp
    | cons c ms =>
      have hc : p c = false := hm c rfl
      simp [List.takeWhile, List.dropWhile, hc]
  | cons x xs ih =>
    have hx : p x = true := hl x (by simp)
    have ihx := ih (fun c hc => hl c (by simp [hc]))
    simp [List.takeWhile, List.dropWhile, hx, ihx.1, ihx.2]

/-- The regex replacement `-p\d+$ → -*` on a string of the shape
`base ++ "-p" ++ digits` yields `base ++ "-*"`. -/
theorem replacePageSuffix_eq (base ds : String) (hne : ds.data ≠ [])
    (hd : ∀ c ∈ ds.data, c.isDigit = true) :
    replacePageSuffix (base ++ "-p" ++ ds) = base ++ "-*" := by
  have hdata : (base ++ "-p" ++ ds).data = base.data ++ ('-' :: 'p' :: ds.data) := by
    simp [data_append_eq]
  have hrev : (base ++ "-p" ++ ds).data.reverse =
      ds.data.reverse ++ ('p' :: '-' :: base.data.reverse) := by
    rw [hdata]
    simp
  have hall : ∀ c ∈ ds.data.reverse, Char.isDigit c = true :=
    fun c hc => hd c (List.mem_reverse.mp hc)
  have hhead : ∀ c, ('p' :: '-' :: base.data.reverse).head? = some c →
      Char.isDigit c = false := by
    intro c hc
    simp at hc
    subst hc
    decide
  obtain ⟨htw, hdw⟩ :=
    takeWhile_dropWhile_append (ds.data.reverse) ('p' :: '-' :: base.data.reverse)
      hall hhead
  obtain ⟨d0, dtl, hcons⟩ := List.exists_cons_of_ne_nil
    (show ds.data.reverse ≠ [] by simpa using hne)
  simp only [replacePageSuffix]
  rw [hrev, htw, hdw, hcons]
  apply string_eq_of_data
  simp [data_append_eq]

/-! ## Claim theorems -/

/-- C5: evaluating the code at the claim's scenario — on
`/equality/static-secret/bearer-token` with `static_secret=s3cr3t`,
`BearerTokenExtractor.__call__` is a plain `def` (against the
`async def __call__` of its own `TokenExtractorStrategy` protocol), so
`asyncio.gather` receives its plain `str`/`None` return and raises an
uncaught `TypeError`: the route answers 500, never the claimed 200/403,
for the correct and the wrong bearer token alike. -/
theorem C5_bearer_route_gather_type_error :
    authCheckGather bearerCallContainer false reqBearerGood = .raise .typeError ∧
    authCheckGather bearerCallContainer false reqBearerWrong = .raise .typeError := by
  constructor
  · rfl
  · rfl

/-- C6: `ManifestWithSecretExtractor` does not confine the manifest to its
base path: for a request whose `x-original-uri` contains a `..` segment,
the OS-resolved manifest path lies outside `/app/static_files`, and the
extractor returns the `secret` of a `*_manifest.json` file located there. -/
theorem C6_manifest_secret_path_traversal :
    manifestWithSecretCall fsOutsideBase "/app/static_files" reqDotDotUri =
      some "outside-secret" ∧
    normalizePath (getManifestPath (uriToPath "/app/static_files" "/../secret_dir/evil.txt")) =
      "/app/secret_dir/evil_manifest.json" ∧
    pyStartsWith
      (normalizePath (getManifestPath (uriToPath "/app/static_files" "/../secret_dir/evil.txt")))
      "/app/static_files/" = false ∧
    (pySplitChar "/../secret_dir/evil.txt" '/').contains ".." = true := by
  refine ⟨rfl, by decide, by decide, by decide⟩

/-- C4: `CookieBitmapExtractor` accepts no `verifyAudience` option — the
keyword the DI wiring passes is not among its constructor parameters (the
instantiation raises `TypeError`), unlike `CookieUserIdExtractor`; and its
`validate_jwt` call passes no `verify_audience`, so audience verification
is always on (the parameter's default), never controlled by
configuration. -/
theorem C4_cookie_bitmap_verify_audience_not_configurable :
    hasUnexpectedKwarg diCookieBitmapKwargs cookieBitmapInitParams = true ∧
    cookieBitmapInitParams.contains "verify_audience" = false ∧
    cookieUserIdInitParams.contains "verify_audience" = true ∧
    cookieBitmapValidateJwtKwargs.contains "verify_audience" = false ∧
    cookieBitmapEffectiveVerifyAudience = true := by
  decide

/-- C10: with non-empty `x-forwarded-proto=p` and `x-forwarded-host=h`, the
reconstructed audience is `p://h` when `x-forwarded-port` is absent, empty,
`"80"` or `"443"`, and `p://h:port` for any other port value. -/
theorem C10_audience_reconstruction (req : Request) (p h : String)
    (hp : hget req "x-forwarded-proto" = some p)
    (hh : hget req "x-forwarded-host" = some h)
    (hpne : p ≠ "") (hhne : h ≠ "") :
    ((hget req "x-forwarded-port" = none ∨ hget req "x-forwarded-port" = some "" ∨
      hget req "x-forwarded-port" = some "80" ∨ hget req "x-forwarded-port" = some "443") →
      audienceFromHeaders req = some (p ++ "://" ++ h)) ∧
    (∀ pt, hget req "x-forwarded-port" = some pt → pt ≠ "" → pt ≠ "80" → pt ≠ "443" →
      audienceFromHeaders req = some (p ++ "://" ++ h ++ ":" ++ pt)) := by
  constructor
  · intro hport
    rcases hport with h0 | h0 | h0 | h0 <;>
      simp [audienceFromHeaders, hp, hh, hpne, hhne, h0]
  · intro pt hpt hne1 hne2 hne3
    simp [audienceFromHeaders, hp, hh, hpne, hhne, hpt, hne1, hne2, hne3]
    apply string_eq_of_data
    simp [data_append_eq]

/-- C10 witness: a concrete request with proto `https`, host `example.com`
and port `8080` reconstructs audience `https://example.com:8080`. -/
theorem C10_audience_reconstruction_witness :
    audienceFromHeaders reqForwarded8080 = some ("https" ++ "://" ++ "example.com" ++ ":" ++ "8080") :=
  (C10_audience_reconstruction reqForwarded8080 "https" "example.com" rfl rfl
      (by decide) (by decide)).2 "8080" rfl (by decide) (by decide) (by decide)

/-- C7: on the with-quota-check route, a registered quota matcher returning
`false` yields 403 with `X-Redirect-Url: https://http.cat/429`; when no
entry named `"quota"` is registered the quota step is skipped silently and
the decision is the same as without quota. -/
theorem C7_quota_route_deny_and_skip (c : Container) (req : Request) :
    (∀ q, c.matchers "quota" = some (.quotaEntry q) → q req = false →
      authCheck c true req = .response ⟨403, some "https://http.cat/429"⟩) ∧
    (c.matchers "quota" = none → authCheck c true req = authCheck c false req) := by
  constructor
  · intro q hq hqf
    simp [authCheck, hq, hqf, quotaDenyResponse]
  · intro hnone
    simp [authCheck, hnone]

/-- C7 witness: with an always-denying quota matcher registered, the
with-quota route answers 403 with the redirect header on a concrete
request. -/
theorem C7_quota_route_deny_and_skip_witness :
    authCheck quotaDenyContainer true reqBearerGood =
      .response ⟨403, some "https://http.cat/429"⟩ :=
  (C7_quota_route_deny_and_skip quotaDenyContainer reqBearerGood).1
    alwaysOverQuota rfl rfl

/-- C8: `QuotaMatcher` fails open (`true`) when either sub-extractor
raises, when either yields a missing or empty id, and when the quota
checker raises; otherwise it returns `true` exactly when the checker
reports `below_quota`. -/
theorem C8_quota_matcher_fail_open
    (userE docE : Request → PyResult (Option String))
    (checker : String → String → PyResult String) (req : Request) :
    (∀ e, userE req = .exc e → quotaMatcherCall userE docE checker req = true) ∧
    (∀ t e, userE req = .ok t → docE req = .exc e →
      quotaMatcherCall userE docE checker req = true) ∧
    (∀ u d, userE req = .ok u → docE req = .ok d →
      (u = none ∨ u = some "" ∨ d = none ∨ d = some "") →
      quotaMatcherCall userE docE checker req = true) ∧
    (∀ us ds e, userE req = .ok (some us) → docE req = .ok (some ds) →
      us ≠ "" → ds ≠ "" → checker us ds = .exc e →
      quotaMatcherCall userE docE checker req = true) ∧
    (∀ us ds r, userE req = .ok (some us) → docE req = .ok (some ds) →
      us ≠ "" → ds ≠ "" → checker us ds = .ok r →
      (quotaMatcherCall userE docE checker req = true ↔ r = "below_quota")) := by
  refine ⟨?_, ?_, ?_, ?_, ?_⟩
  · intro e he
    simp [quotaMatcherCall, he]
  · intro t e ht he
    simp [quotaMatcherCall, ht, he]
  · intro u d hu hd hcase
    rcases hcase with h0 | h0 | h0 | h0 <;> subst h0 <;>
      simp [quotaMatcherCall, hu, hd] <;>
      (try cases u) <;> (try cases d) <;> simp
  · intro us ds e hu hd hus hds hc
    simp [quotaMatcherCall, hu, hd, hus, hds, hc]
  · intro us ds r hu hd hus hds hc
    simp [quotaMatcherCall, hu, hd, hus, hds, hc]

/-- C8 witness: with both ids extracted and non-empty and a checker
answering `quota_reached`, the quota matcher returns `false`. -/
theorem C8_quota_matcher_fail_open_witness :
    quotaMatcherCall quotaUserExtractorDemo quotaDocExtractorDemo
      quotaCheckerReached reqEmpty = false := by
  have h := (C8_quota_matcher_fail_open quotaUserExtractorDemo
      quotaDocExtractorDemo quotaCheckerReached reqEmpty).2.2.2.2
    "user1" "doc1" "quota_reached" rfl rfl (by decide) (by decide) rfl
  cases hc : quotaMatcherCall quotaUserExtractorDemo quotaDocExtractorDemo
      quotaCheckerReached reqEmpty
  · rfl
  · exact absurd (h.mp hc) (by decide)

/-- C9: whenever the IIIF id parser (after any `x-prefix-strip` handling)
yields a first path segment of the shape `base-p<digits>`, the
wildcard-page-suffix parser yields `base-*`. -/
theorem C9_wildcard_page_suffix (req : Request) (base ds : String)
    (hid : extractIdFromXOriginalUriWithIiif req = some (base ++ "-p" ++ ds))
    (hne : ds ≠ "") (hd : ∀ c ∈ ds.data, c.isDigit = true) :
    extractIdWithIiifAndWildcardPageSuffix req = some (base ++ "-*") := by
  have hdne : ds.data ≠ [] := by
    intro h0
    exact hne (string_eq_of_data h0)
  have hidne : (base ++ "-p" ++ ds) ≠ "" := by
    intro h0
    have hdat := congrArg String.data h0
    simp [data_append_eq] at hdat
  unfold extractIdWithIiifAndWildcardPageSuffix
  rw [hid]
  show (if (base ++ "-p" ++ ds) = "" then none
    else some (replacePageSuffix (base ++ "-p" ++ ds))) = some (base ++ "-*")
  rw [if_neg hidne]
  rw [replacePageSuffix_eq base ds hdne hd]

/-- C9 witness: the URI `/EXP-1829-03-26-a-p0007/info.json` yields
`EXP-1829-03-26-a-*` through the wildcard-page-suffix parser. -/
theorem C9_wildcard_page_suffix_witness :
    extractIdWithIiifAndWildcardPageSuffix reqWildcardExample =
      some ("EXP-1829-03-26-a" ++ "-*") :=
  C9_wildcard_page_suffix reqWildcardExample "EXP-1829-03-26-a" "0007"
    (by decide) (by decide) (by decide)

/-- C1 counterexample: the handler converts no exceptions — a network
error (`httpx.RequestError`, a non-protocol exception) inside the IIIF
presentation manifest extractor, which is not the index extractor,
propagates out of `auth_check` instead of becoming a 403 Deny. -/
theorem C1_counterexample_iiif_network_error_propagates :
    authCheck demoContainer false reqIiifResource = .raise .requestError := by
  rfl

/-- C1 amended: `auth_check` installs no exception handling around the
extractors or the matcher; once the quota step passes and all three
registry lookups succeed, any exception an extractor lets escape — from
either extractor, network or not — propagates out of the handler
(surfacing as 5xx). -/
theorem C1_extractor_exceptions_propagate (c : Container) (wq : Bool)
    (req : Request) (e : PyExc) (ce re : Extractor) (m : MatcherEntry)
    (hq : QuotaPass c wq req)
    (hce : lookupClient c req = some ce)
    (hre : lookupResource c req = some re)
    (hm : lookupMatcher c req = some m) :
    (ce req = .exc e → authCheck c wq req = .raise e) ∧
    (∀ t, ce req = .ok t → re req = .exc e → authCheck c wq req = .raise e) := by
  constructor
  · intro hexc
    rw [authCheck_eq_core hq]
    simp [authCheckCore, hce, hre, hm, hexc]
  · intro t hok hexc
    rw [authCheck_eq_core hq]
    simp [authCheckCore, hce, hre, hm, hok, hexc]

/-- C1 witness: on the swapped route the client extractor is the IIIF
manifest extractor; its transport error propagates out of the handler. -/
theorem C1_extractor_exceptions_propagate_witness :
    authCheck demoContainer false reqIiifClient = .raise .requestError :=
  (C1_extractor_exceptions_propagate demoContainer false reqIiifClient
      .requestError iiifEntryRequestError staticSecretEntry
      (.tokenMatcher bitwiseAndMatcher) (Or.inl rfl) rfl rfl rfl).1 rfl

/-- C2 counterexample: a 5xx response from the manifest server does not
propagate out of the IIIF extractor — `_fetch_manifest` returns `None` for
every non-200 status, so the extractor returns no token. -/
theorem C2_counterexample_5xx_returns_none :
    iiifManifestCall httpAlways500 extractUrlFromXOriginalUri
      "explore_bitmaps" "manifest.json" reqIiifResource = .ok none ∧
    ∀ e, iiifManifestCall httpAlways500 extractUrlFromXOriginalUri
      "explore_bitmaps" "manifest.json" reqIiifResource ≠ .exc e := by
  have hbase : iiifManifestCall httpAlways500 extractUrlFromXOriginalUri
      "explore_bitmaps" "manifest.json" reqIiifResource = .ok none := rfl
  refine ⟨hbase, fun e h => ?_⟩
  rw [hbase] at h
  exact PyResult.noConfusion h

/-- C2 amended: the IIIF manifest extractor returns no token for every
non-200 manifest status — 404 and 5xx alike — and the pipeline then
answers 403; only a transport-level `httpx.RequestError` propagates out of
the extractor. -/
theorem C2_iiif_manifest_status_handling (http : String → HttpReply)
    (req : Request) (u : String)
    (hu : extractUrlFromXOriginalUri req = some u) (hune : u ≠ "") :
    (∀ st body, http (manifestUrlFor u "manifest.json") = .resp st body →
      st ≠ 200 →
      iiifManifestCall http extractUrlFromXOriginalUri "explore_bitmaps"
        "manifest.json" req = .ok none) ∧
    (http (manifestUrlFor u "manifest.json") = .requestError →
      iiifManifestCall http extractUrlFromXOriginalUri "explore_bitmaps"
        "manifest.json" req = .exc .requestError) ∧
    (∀ (c : Container) (wq : Bool) (ce : Extractor) (m : MatcherEntry)
      (t : Option Token) (st : Nat) (body : Manifest),
      QuotaPass c wq req →
      lookupClient c req = some ce →
      lookupResource c req = some (fun r =>
        iiifManifestCall http extractUrlFromXOriginalUri "explore_bitmaps"
          "manifest.json" r) →
      lookupMatcher c req = some m →
      ce req = .ok t →
      http (manifestUrlFor u "manifest.json") = .resp st body → st ≠ 200 →
      authCheck c wq req = denyResponse) := by
  have hnon200 : ∀ st body, http (manifestUrlFor u "manifest.json") = .resp st body →
      st ≠ 200 →
      iiifManifestCall http extractUrlFromXOriginalUri "explore_bitmaps"
        "manifest.json" req = .ok none := by
    intro st body hresp hst
    simp only [iiifManifestCall, hu]
    rw [if_neg hune]
    simp [fetchManifest, hresp, hst]
  refine ⟨hnon200, ?_, ?_⟩
  · intro herr
    simp only [iiifManifestCall, hu]
    rw [if_neg hune]
    simp [fetchManifest, herr]
  · intro c wq ce m t st body hq hce hre hm hok hresp hst
    rw [authCheck_eq_core hq]
    have hnone := hnon200 st body hresp hst
    cases t with
    | none => simp [authCheckCore, hce, hre, hm, hok, hnone]
    | some a => simp [authCheckCore, hce, hre, hm, hok, hnone]

/-- C2 witness: a 404 from the manifest server makes the extractor return
no token on a concrete request. -/
theorem C2_iiif_manifest_status_handling_witness :
    iiifManifestCall httpAlways404 extractUrlFromXOriginalUri
      "explore_bitmaps" "manifest.json" reqIiifResource = .ok none :=
  (C2_iiif_manifest_status_handling httpAlways404 reqIiifResource
      "http://example.com/doc/info.json" (by decide) (by decide)).1
    404 ⟨[]⟩ rfl (by decide)

/-- C3 counterexample: the quota step runs before name resolution — with an
always-denying quota matcher registered, a request naming an unregistered
matcher on the with-quota route is answered 403 with the
`X-Redirect-Url: https://http.cat/429` header, contradicting "Deny without
the X-Redirect-Url header, regardless of quota state". -/
theorem C3_counterexample_quota_runs_first :
    authCheck quotaDenyContainer true reqUnknownMatcher =
      .response ⟨403, some "https://http.cat/429"⟩ := by
  rfl

/-- C3 amended: resolution happens after the quota step. When the quota
step passes or is skipped, a request naming an unregistered matcher or
extractor is denied without the redirect header; but when the registered
quota matcher returns `false`, the response carries the redirect header
even for unregistered names. -/
theorem C3_resolution_after_quota (c : Container) (wq : Bool) (req : Request) :
    (QuotaPass c wq req →
      (lookupClient c req = none ∨ lookupResource c req = none ∨
        lookupMatcher c req = none) →
      authCheck c wq req = denyResponse) ∧
    (∀ q, c.matchers "quota" = some (.quotaEntry q) → q req = false →
      authCheck c true req = quotaDenyResponse) := by
  constructor
  · intro hq hfail
    rw [authCheck_eq_core hq]
    rcases hfail with h0 | h0 | h0
    · cases hr : lookupResource c req <;> simp [authCheckCore, h0, hr]
    · cases hc : lookupClient c req <;> simp [authCheckCore, hc, h0]
    · cases hc : lookupClient c req
      · cases hr : lookupResource c req <;> simp [authCheckCore, hc, hr]
      · cases hr : lookupResource c req <;> simp [authCheckCore, hc, hr, h0]
  · intro q hq hqf
    simp [authCheck, hq, hqf]

/-- C3 witness: with the quota step skipped (`withQuota` unset), the same
unregistered-matcher request is denied without the redirect header. -/
theorem C3_resolution_after_quota_witness :
    authCheck quotaDenyContainer false reqUnknownMatcher = denyResponse :=
  (C3_resolution_after_quota quotaDenyContainer false reqUnknownMatcher).1
    (Or.inl rfl) (Or.inr (Or.inr rfl))

end ImpressoContentAuth
